import Mathlib

/-!
Shallow embedding of the leave-request workflow engine of the
`vacation_system` repository (`services/vacation_service.py`,
`utils/decorators.py`), together with theorems checking the
natural-language specification against it.

Conventions of the embedding:
* Python `datetime.date` values are modelled by `CalDate` (year, month,
  day); ordering and day-difference go through `CalDate.toOrdinal`, which
  mirrors CPython `date.toordinal` (proleptic Gregorian), so `d1 < d2`
  and `(d2 - d1).days` in the source become ordinal comparison and
  ordinal subtraction here.
* Day counts are `ℚ` because half-day kinds consume `0.5` day.
* Database lookups are passed in as resolved values: the service
  operations take the already-loaded user record, vacation record, or
  the applicant's list of existing vacation records as arguments, and
  return the updated record (or `none` for a deletion) instead of
  mutating a session.
* `constants.py` and `utils/vacation_calculator.py` are not part of the
  sources at hand; the role-name tokens and the tenure-eligibility rule
  are modelled from the spec and marked as such below.
-/

namespace VacationSystem

/-! ### Python string primitives

`pySplitComma` is Python `str.split(',')` (keeps empty fields, no
trimming); `pyStrip` is Python `str.strip()` (drops leading and trailing
whitespace). Both are written by structural recursion on the character
list so that concrete instances evaluate inside the kernel. -/

def splitCommaAux : List Char → List Char → List String
  | [], acc => [String.mk acc.reverse]
  | c :: rest, acc =>
    if c = ',' then String.mk acc.reverse :: splitCommaAux rest []
    else splitCommaAux rest (c :: acc)

def pySplitComma (s : String) : List String :=
  splitCommaAux s.toList []

def isPySpace (c : Char) : Bool :=
  c = ' ' || c = '\t' || c = '\n' || c = '\r' || c = '\x0b' || c = '\x0c'

def pyStrip (s : String) : String :=
  String.mk (((s.toList.dropWhile isPySpace).reverse.dropWhile isPySpace).reverse)

/-! ### Calendar dates -/

structure CalDate where
  year : Int
  month : Int
  day : Int
deriving DecidableEq, Repr

def CalDate.isLeapYear (y : Int) : Bool :=
  (y % 4 == 0 && y % 100 != 0) || y % 400 == 0

def CalDate.daysBeforeMonth (m : Int) : Int :=
  match m with
  | 1 => 0 | 2 => 31 | 3 => 59 | 4 => 90 | 5 => 120 | 6 => 151
  | 7 => 181 | 8 => 212 | 9 => 243 | 10 => 273 | 11 => 304 | _ => 334

/-- Proleptic Gregorian ordinal, as in CPython `date.toordinal`
(`0001-01-01` has ordinal 1). -/
def CalDate.toOrdinal (dte : CalDate) : Int :=
  let y := dte.year - 1
  y * 365 + y / 4 - y / 100 + y / 400
    + CalDate.daysBeforeMonth dte.month
    + (if dte.month > 2 && CalDate.isLeapYear dte.year then 1 else 0)
    + dte.day

/-- Python `(b - a).days`. -/
def CalDate.daysUntil (a b : CalDate) : Int :=
  b.toOrdinal - a.toOrdinal

/-- Python `a < b` on dates. -/
def CalDate.before (a b : CalDate) : Bool :=
  a.toOrdinal < b.toOrdinal

/-- Python `a > b` on dates. -/
def CalDate.after (a b : CalDate) : Bool :=
  a.toOrdinal > b.toOrdinal

/-! ### Constants (`constants.py` is not among the sources) -/

/-- Modelled from the spec: the role set is
`{member, part-leader, team-leader}` (`constants.py` with the actual
`UserRole` string values is not among the sources; the tokens are
concrete distinct names, which is all the workflow code relies on). -/
def UserRole.MEMBER : String := "member"

/-- Modelled from the spec: the part-leader role token (see
`UserRole.MEMBER`). -/
def UserRole.PART_LEADER : String := "part-leader"

/-- Modelled from the spec: the team-leader role token (see
`UserRole.MEMBER`). -/
def UserRole.TEAM_LEADER : String := "team-leader"

/-- The four persisted request states (`constants.VacationStatus`);
cancellation deletes the record and is not a state. -/
inductive VacationStatus where
  | pending_part_leader
  | pending_team_leader
  | approved
  | rejected
deriving DecidableEq, Repr

/-! ### Data model (`models.py` records, as read by the service) -/

structure UserRec where
  username : String
  role : String
  part : String
  join_date : CalDate
deriving DecidableEq, Repr

structure Vacation where
  applicant : String
  vacation_type : String
  start_date : CalDate
  end_date : CalDate
  reason : String
  backup : String
  status : VacationStatus
deriving DecidableEq, Repr

/-- The fields of the submission form (`vacation_data` in
`apply_vacation`), with the two dates already ISO-parsed. -/
structure VacationData where
  vacation_type : String
  start_date : CalDate
  end_date : CalDate
  reason : String
  backup : String
deriving DecidableEq, Repr

/-! ### The tenure calculator (`utils/vacation_calculator.py` is not
among the sources) -/

/-- Full calendar months elapsed from `hire` to `asOf`: month difference,
minus one when the day-of-month has not yet been reached. -/
def fullMonthsElapsed (hire asOf : CalDate) : Int :=
  (asOf.year - hire.year) * 12 + (asOf.month - hire.month)
    - (if asOf.day < hire.day then 1 else 0)

/-- Modelled from the spec: `EligibleForAnnualLeave(hireDate, asOf)` of
`VacationCalculator.can_use_annual_leave` (file not among the sources) —
true iff at least 3 full months have elapsed since the hire date. -/
def can_use_annual_leave (hire asOf : CalDate) : Bool :=
  fullMonthsElapsed hire asOf ≥ 3

/-! ### VacationService: role predicates and the approval policy
(`services/vacation_service.py`) -/

/-- `VacationService._is_team_leader`: membership of the team-leader
token among the raw comma-split fields of the role string (no
trimming). -/
def is_team_leader (user_role : String) : Bool :=
  (pySplitComma user_role).contains UserRole.TEAM_LEADER

/-- `VacationService._is_part_leader`: membership of the part-leader
token among the raw comma-split fields of the role string (no
trimming). -/
def is_part_leader (user_role : String) : Bool :=
  (pySplitComma user_role).contains UserRole.PART_LEADER

/-- `VacationService._has_approval_permission`. -/
def has_approval_permission (user_role : String) : Bool :=
  is_part_leader user_role || is_team_leader user_role

/-- `VacationService._determine_approval_status`: initial status of a new
request as a function of the applicant's role string. -/
def determine_approval_status (user_role : String) : VacationStatus :=
  if is_part_leader user_role then VacationStatus.pending_team_leader
  else VacationStatus.pending_part_leader

/-- `VacationService._validate_approval_permission`: `some newStatus` on
allow, `none` on deny. -/
def validate_approval_permission (user_role : String)
    (current_status : VacationStatus) : Option VacationStatus :=
  if is_team_leader user_role && current_status == VacationStatus.pending_team_leader then
    some VacationStatus.approved
  else if is_part_leader user_role && current_status == VacationStatus.pending_part_leader then
    some VacationStatus.pending_team_leader
  else
    none

/-- `VacationService.approve_vacation` on a loaded approver and request:
returns the success flag and the request record after the operation. -/
def approve_vacation (approver : UserRec) (v : Vacation) : Bool × Vacation :=
  match validate_approval_permission approver.role v.status with
  | some new_status => (true, { v with status := new_status })
  | none => (false, v)

/-- `VacationService.reject_vacation` on a loaded approver and request. -/
def reject_vacation (approver : UserRec) (v : Vacation) : Bool × Vacation :=
  if !(has_approval_permission approver.role) then (false, v)
  else if !(v.status == VacationStatus.pending_part_leader
            || v.status == VacationStatus.pending_team_leader) then (false, v)
  else (true, { v with status := VacationStatus.rejected })

/-- `VacationService.cancel_vacation` on a loaded request: the success
flag, and `none` when the record was deleted. -/
def cancel_vacation (v : Vacation) (username : String) : Bool × Option Vacation :=
  if v.applicant != username then (false, some v)
  else if v.status == VacationStatus.pending_part_leader
          || v.status == VacationStatus.pending_team_leader then (true, none)
  else (false, some v)

/-! ### VacationService: overlap and balance checks -/

/-- The status filter `status.in_([PENDING_PART_LEADER,
PENDING_TEAM_LEADER, APPROVED])` shared by the overlap query and the
used-days query. -/
def isActiveStatus (s : VacationStatus) : Bool :=
  s == VacationStatus.pending_part_leader
    || s == VacationStatus.pending_team_leader
    || s == VacationStatus.approved

/-- The loop condition of `_check_vacation_overlap`:
`not (new_end < existing_start or new_start > existing_end)` on the
inclusive ranges `[a, b]` (new) and `[c, d]` (existing). -/
def ranges_overlap (a b c d : CalDate) : Bool :=
  !(b.before c || a.after d)

/-- `VacationService._check_vacation_overlap`: `true` = success (no
active request of the applicant overlaps the proposed range). -/
def check_vacation_overlap (vacations : List Vacation) (username : String)
    (new_start new_end : CalDate) : Bool :=
  (vacations.filter fun v => v.applicant == username && isActiveStatus v.status).all
    fun v => !(ranges_overlap new_start new_end v.start_date v.end_date)

/-- The per-record contribution inside
`_calculate_used_annual_leave`: inclusive day count for `annual`,
`0.5` for the half-day kinds, `0` otherwise. -/
def vacation_contribution (v : Vacation) : ℚ :=
  if v.vacation_type == "annual" then
    ((CalDate.daysUntil v.start_date v.end_date + 1 : Int) : ℚ)
  else if v.vacation_type == "am_half_day" || v.vacation_type == "pm_half_day" then
    (1 : ℚ) / 2
  else 0

/-- `VacationService._calculate_used_annual_leave` over the applicant's
records. -/
def calculate_used_annual_leave (vacations : List Vacation) (username : String) : ℚ :=
  ((vacations.filter fun v => v.applicant == username && isActiveStatus v.status).map
    vacation_contribution).sum

/-- The requested-day count inside `_check_annual_leave_balance`. -/
def requested_days (vacation_type : String) (start_date end_date : CalDate) : ℚ :=
  if vacation_type == "annual" then
    ((CalDate.daysUntil start_date end_date + 1 : Int) : ℚ)
  else if vacation_type == "am_half_day" || vacation_type == "pm_half_day" then
    (1 : ℚ) / 2
  else 0

/-- Outcome of `_check_annual_leave_balance`: `exceeded r` carries the
remaining balance reported in the rejection message. -/
inductive BalanceCheck where
  | ok
  | exceeded (remaining : ℚ)
deriving DecidableEq, Repr

/-- `VacationService._check_annual_leave_balance`, with the entitlement
(`calculate_annual_leave`) and the used days already computed. -/
def check_annual_leave_balance (total_annual_leave used_annual_leave : ℚ)
    (vacation_type : String) (start_date end_date : CalDate) : BalanceCheck :=
  if used_annual_leave + requested_days vacation_type start_date end_date
      > total_annual_leave then
    BalanceCheck.exceeded (total_annual_leave - used_annual_leave)
  else
    BalanceCheck.ok

/-! ### VacationService: submission -/

/-- Outcome of `apply_vacation`; each failure constructor is one of the
rejection branches of the source, in source order. -/
inductive ApplyOutcome where
  | pastDate
  | notEligible
  | overlap
  | overBalance (remaining : ℚ)
  | created (v : Vacation)
deriving DecidableEq, Repr

/-- `VacationService.apply_vacation` on a loaded user and the applicant's
existing records. `total_of` stands for
`VacationCalculator.calculate_annual_leave` (file not among the sources;
the spec leaves the entitlement table pluggable), `today` for
`date.today()`. -/
def apply_vacation (total_of : CalDate → ℚ) (today : CalDate)
    (user : UserRec) (existing : List Vacation) (dta : VacationData) : ApplyOutcome :=
  if dta.start_date.before today then ApplyOutcome.pastDate
  else if !(can_use_annual_leave user.join_date today) then ApplyOutcome.notEligible
  else if !(check_vacation_overlap existing user.username dta.start_date dta.end_date) then
    ApplyOutcome.overlap
  else
    match check_annual_leave_balance (total_of user.join_date)
        (calculate_used_annual_leave existing user.username)
        dta.vacation_type dta.start_date dta.end_date with
    | BalanceCheck.exceeded remaining => ApplyOutcome.overBalance remaining
    | BalanceCheck.ok =>
        ApplyOutcome.created
          { applicant := user.username
            vacation_type := dta.vacation_type
            start_date := dta.start_date
            end_date := dta.end_date
            reason := dta.reason
            backup := dta.backup
            status := determine_approval_status user.role }

/-! ### Route decorator (`utils/decorators.py`) -/

/-- The role-token list of `approval_required`: comma-split then
whitespace-stripped. -/
def decorator_roles (role : String) : List String :=
  (pySplitComma role).map pyStrip

/-- `approval_required`: grants access iff the stripped token list
contains the team-leader or the part-leader token. -/
def approval_required_allows (role : String) : Bool :=
  (decorator_roles role).contains UserRole.TEAM_LEADER
    || (decorator_roles role).contains UserRole.PART_LEADER


/-! ### Sample records used by the concrete witnesses -/

def sampleDay : CalDate := ⟨2026, 1, 5⟩

def teamLeaderKim : UserRec := ⟨"kim", "team-leader", "p1", ⟨2020, 1, 1⟩⟩

def partLeaderPark : UserRec := ⟨"park", "part-leader", "p1", ⟨2020, 1, 1⟩⟩

def memberAlice : UserRec := ⟨"alice", "member", "p1", ⟨2020, 1, 1⟩⟩

def mixedRoleChoi : UserRec := ⟨"choi", "member, part-leader", "p1", ⟨2020, 1, 1⟩⟩

def memberBob : UserRec := ⟨"bob", "member", "p1", ⟨2026, 1, 1⟩⟩

def pendingTLReq : Vacation :=
  ⟨"kim", "annual", ⟨2026, 2, 1⟩, ⟨2026, 2, 3⟩, "r", "b", VacationStatus.pending_team_leader⟩

def pendingPLReq : Vacation :=
  ⟨"lee", "annual", ⟨2026, 2, 1⟩, ⟨2026, 2, 3⟩, "r", "b", VacationStatus.pending_part_leader⟩

def approvedReq : Vacation :=
  ⟨"lee", "annual", ⟨2026, 2, 1⟩, ⟨2026, 2, 3⟩, "r", "b", VacationStatus.approved⟩

def rejectedReq : Vacation :=
  ⟨"lee", "annual", ⟨2026, 2, 1⟩, ⟨2026, 2, 3⟩, "r", "b", VacationStatus.rejected⟩

def parkSubmission : VacationData := ⟨"unpaid", ⟨2026, 2, 1⟩, ⟨2026, 2, 2⟩, "r", "b"⟩

def parkCreated : Vacation :=
  ⟨"park", "unpaid", ⟨2026, 2, 1⟩, ⟨2026, 2, 2⟩, "r", "b", VacationStatus.pending_team_leader⟩

def bobUnpaidSubmission : VacationData := ⟨"unpaid", ⟨2026, 2, 10⟩, ⟨2026, 2, 10⟩, "r", "b"⟩

/-! ### Helper lemmas -/

/-- The record filter shared by the overlap and used-days queries, as a
propositional condition. -/
theorem active_filter_iff (v : Vacation) (username : String) :
    (v.applicant == username && isActiveStatus v.status) = true ↔
      v.applicant = username ∧
        (v.status = VacationStatus.pending_part_leader ∨
          v.status = VacationStatus.pending_team_leader ∨
          v.status = VacationStatus.approved) := by
  cases v.status <;> simp [isActiveStatus]

/-- Unfolding `_calculate_used_annual_leave` one record at a time. -/
theorem calculate_used_cons (v : Vacation) (vs : List Vacation) (username : String) :
    calculate_used_annual_leave (v :: vs) username =
      (if v.applicant == username && isActiveStatus v.status then vacation_contribution v
        else 0) + calculate_used_annual_leave vs username := by
  simp only [calculate_used_annual_leave, List.filter_cons]
  split <;> simp

/-- `vacation_contribution` with propositional conditions. -/
theorem vacation_contribution_cases (v : Vacation) :
    vacation_contribution v =
      if v.vacation_type = "annual" then
        ((CalDate.daysUntil v.start_date v.end_date + 1 : Int) : ℚ)
      else if v.vacation_type = "am_half_day" ∨ v.vacation_type = "pm_half_day" then
        (1 : ℚ) / 2
      else 0 := by
  simp [vacation_contribution]

/-! ### The claims -/

/-- C1: an approve operation by a team-leader on a request in
`pending_team_leader` sets the status to `approved`; one by a part-leader
on a request in `pending_part_leader` sets it to `pending_team_leader`;
every other combination of approver roles and current status (including
the terminal statuses `approved` and `rejected`) is denied and leaves the
request unchanged. -/
theorem approve_follows_policy (approver : UserRec) (v : Vacation) :
    (is_team_leader approver.role = true → v.status = VacationStatus.pending_team_leader →
      approve_vacation approver v = (true, { v with status := VacationStatus.approved })) ∧
    (is_part_leader approver.role = true → v.status = VacationStatus.pending_part_leader →
      approve_vacation approver v = (true, { v with status := VacationStatus.pending_team_leader })) ∧
    (¬(is_team_leader approver.role = true ∧ v.status = VacationStatus.pending_team_leader) →
      ¬(is_part_leader approver.role = true ∧ v.status = VacationStatus.pending_part_leader) →
      approve_vacation approver v = (false, v)) := by
  cases hT : is_team_leader approver.role <;>
    cases hP : is_part_leader approver.role <;>
      cases hS : v.status <;>
        simp_all [approve_vacation, validate_approval_permission]

/-- C1 witness: a concrete team-leader approving a concrete
`pending_team_leader` request yields `approved`. -/
theorem approve_follows_policy_witness :
    approve_vacation teamLeaderKim pendingTLReq =
      (true, { pendingTLReq with status := VacationStatus.approved }) :=
  (approve_follows_policy teamLeaderKim pendingTLReq).1 (by decide) rfl

/-- C2: `apply_vacation` runs no end-versus-start validation, so a
submission whose end date precedes its start date passes every check and
is persisted with the reversed range — against the spec invariant
`end date ≥ start date`. The failing input: entitlement 15, today
2026-01-05, member alice (hired 2020-01-01, no existing requests)
submitting annual leave 2026-03-10 .. 2026-03-05. -/
theorem reversed_range_submission_admitted :
    apply_vacation (fun _ => 15) sampleDay memberAlice []
        ⟨"annual", ⟨2026, 3, 10⟩, ⟨2026, 3, 5⟩, "r", "b"⟩ =
      ApplyOutcome.created
        ⟨"alice", "annual", ⟨2026, 3, 10⟩, ⟨2026, 3, 5⟩, "r", "b",
          VacationStatus.pending_part_leader⟩ ∧
    CalDate.toOrdinal ⟨2026, 3, 5⟩ < CalDate.toOrdinal ⟨2026, 3, 10⟩ := by
  constructor
  · norm_num +decide [apply_vacation, CalDate.before, can_use_annual_leave,
      fullMonthsElapsed, check_vacation_overlap, check_annual_leave_balance,
      requested_days, calculate_used_annual_leave, determine_approval_status,
      memberAlice, sampleDay, CalDate.toOrdinal, CalDate.daysBeforeMonth,
      CalDate.isLeapYear, CalDate.daysUntil]
  · decide

/-- C3 counterexample: the 3-month tenure gate of `apply_vacation` is not
restricted to the annual and half-day kinds — a member hired 2026-01-01
submitting an `unpaid` request on 2026-02-01 (1 full month of tenure) is
rejected on tenure grounds, refuting the claim that non-annual kinds are
never rejected on tenure grounds. -/
theorem unpaid_submission_rejected_on_tenure :
    fullMonthsElapsed ⟨2026, 1, 1⟩ ⟨2026, 2, 1⟩ < 3 ∧
    apply_vacation (fun _ => 15) ⟨2026, 2, 1⟩ memberBob [] bobUnpaidSubmission =
      ApplyOutcome.notEligible := by
  exact ⟨by decide, by decide⟩

/-- C3 (amended): the tenure check applies to every submission regardless
of kind — whenever the start date is not in the past and the applicant
has fewer than 3 full months of tenure, `apply_vacation` rejects on
tenure grounds. -/
theorem tenure_gate_applies_to_all_kinds (total_of : CalDate → ℚ) (today : CalDate)
    (user : UserRec) (existing : List Vacation) (dta : VacationData)
    (hpast : dta.start_date.before today = false)
    (hten : can_use_annual_leave user.join_date today = false) :
    apply_vacation total_of today user existing dta = ApplyOutcome.notEligible := by
  simp [apply_vacation, hpast, hten]

/-- C3 witness: the amended claim at the concrete counterexample input. -/
theorem tenure_gate_applies_to_all_kinds_witness :
    apply_vacation (fun _ => 15) ⟨2026, 2, 1⟩ memberBob [] bobUnpaidSubmission =
      ApplyOutcome.notEligible :=
  tenure_gate_applies_to_all_kinds (fun _ => 15) ⟨2026, 2, 1⟩ memberBob []
    bobUnpaidSubmission (by decide) (by decide)

/-- C4: the balance check denies exactly when `used + requested > total`,
reporting `total - used` as the remaining balance, where the requested
day count is the inclusive range length for kind `annual`, `0.5` for the
half-day kinds and `0` for every other kind; in particular 14.5 used days
of a 15-day entitlement plus one more annual day is denied reporting 0.5
remaining. -/
theorem balance_check_exact (total used : ℚ) (vtype : String) (sd ed : CalDate) :
    (check_annual_leave_balance total used vtype sd ed =
        BalanceCheck.exceeded (total - used) ↔
      total < used + requested_days vtype sd ed) ∧
    (check_annual_leave_balance total used vtype sd ed = BalanceCheck.ok ↔
      used + requested_days vtype sd ed ≤ total) ∧
    requested_days "annual" sd ed = ((CalDate.daysUntil sd ed + 1 : Int) : ℚ) ∧
    requested_days "am_half_day" sd ed = 1 / 2 ∧
    requested_days "pm_half_day" sd ed = 1 / 2 ∧
    (vtype ≠ "annual" → vtype ≠ "am_half_day" → vtype ≠ "pm_half_day" →
      requested_days vtype sd ed = 0) ∧
    check_annual_leave_balance 15 (29 / 2) "annual" ⟨2026, 2, 2⟩ ⟨2026, 2, 2⟩ =
      BalanceCheck.exceeded (1 / 2) := by
  refine ⟨?_, ?_, by simp [requested_days], by simp +decide [requested_days],
    by simp +decide [requested_days], ?_, ?_⟩
  · by_cases h : total < used + requested_days vtype sd ed
    · simp only [check_annual_leave_balance, gt_iff_lt, if_pos h]
      simp [h]
    · simp only [check_annual_leave_balance, gt_iff_lt, if_neg h]
      simp [h]
  · by_cases h : total < used + requested_days vtype sd ed
    · simp only [check_annual_leave_balance, gt_iff_lt, if_pos h]
      simp [h.not_le]
    · simp only [check_annual_leave_balance, gt_iff_lt, if_neg h]
      simpa using le_of_not_lt h
  · intro h1 h2 h3
    simp +decide [requested_days, h1, h2, h3]
  · norm_num +decide [check_annual_leave_balance, requested_days, CalDate.daysUntil,
      CalDate.toOrdinal, CalDate.daysBeforeMonth, CalDate.isLeapYear]

/-- C4 witness: a non-annual, non-half-day kind requests 0 days. -/
theorem balance_check_exact_witness :
    requested_days "unpaid" ⟨2026, 2, 2⟩ ⟨2026, 2, 4⟩ = 0 :=
  (balance_check_exact 15 0 "unpaid" ⟨2026, 2, 2⟩ ⟨2026, 2, 4⟩).2.2.2.2.2.1
    (by decide) (by decide) (by decide)

/-- C5: the used-days computation equals the sum, over exactly the
applicant's requests in states `pending_part_leader`,
`pending_team_leader` and `approved`, of the inclusive day count for kind
`annual`, `0.5` for the half-day kinds and `0` for every other kind;
prepending a `rejected` request never changes the result. -/
theorem used_days_characterization (vacations : List Vacation) (username : String) :
    calculate_used_annual_leave vacations username =
      (vacations.map fun v =>
        if v.applicant = username ∧
            (v.status = VacationStatus.pending_part_leader ∨
              v.status = VacationStatus.pending_team_leader ∨
              v.status = VacationStatus.approved) then
          if v.vacation_type = "annual" then
            ((CalDate.daysUntil v.start_date v.end_date + 1 : Int) : ℚ)
          else if v.vacation_type = "am_half_day" ∨ v.vacation_type = "pm_half_day" then
            (1 : ℚ) / 2
          else 0
        else 0).sum ∧
    (∀ v, v.status = VacationStatus.rejected →
      calculate_used_annual_leave (v :: vacations) username =
        calculate_used_annual_leave vacations username) := by
  constructor
  · induction vacations with
    | nil => simp [calculate_used_annual_leave]
    | cons v vs ih =>
      rw [calculate_used_cons, List.map_cons, List.sum_cons, ih]
      by_cases h : (v.applicant == username && isActiveStatus v.status) = true
      · rw [if_pos h, if_pos ((active_filter_iff v username).mp h),
          vacation_contribution_cases]
      · rw [if_neg h, if_neg (fun hc => h ((active_filter_iff v username).mpr hc))]
  · intro v hv
    rw [calculate_used_cons, if_neg (by simp [hv, isActiveStatus]), zero_add]

/-- C5 witness: a rejected request contributes nothing to the used-days
sum. -/
theorem used_days_characterization_witness :
    calculate_used_annual_leave [rejectedReq] "lee" = calculate_used_annual_leave [] "lee" :=
  (used_days_characterization [] "lee").2 rejectedReq rfl

/-- C6: the overlap predicate on inclusive ranges `[a,b]` and `[c,d]`
holds exactly when NOT(`b < c` or `a > d`) and is symmetric; the
submission-time overlap check ignores requests that are rejected or
belong to another applicant, and a submission overlapping an active
request of the same applicant is never admitted. -/
theorem overlap_check_properties (a b c d : CalDate) :
    (ranges_overlap a b c d = true ↔
      ¬(b.toOrdinal < c.toOrdinal ∨ a.toOrdinal > d.toOrdinal)) ∧
    ranges_overlap a b c d = ranges_overlap c d a b ∧
    (∀ (w : Vacation) (vacations : List Vacation) (username : String) (ns ne : CalDate),
      w.status = VacationStatus.rejected ∨ ¬w.applicant = username →
      check_vacation_overlap (w :: vacations) username ns ne =
        check_vacation_overlap vacations username ns ne) ∧
    (∀ (total_of : CalDate → ℚ) (today : CalDate) (user : UserRec)
        (existing : List Vacation) (dta : VacationData) (w : Vacation),
      w ∈ existing → w.applicant = user.username → isActiveStatus w.status = true →
      ranges_overlap dta.start_date dta.end_date w.start_date w.end_date = true →
      ∀ u, apply_vacation total_of today user existing dta ≠ ApplyOutcome.created u) := by
  refine ⟨?_, ?_, ?_, ?_⟩
  · simp [ranges_overlap, CalDate.before, CalDate.after]
  · rw [Bool.eq_iff_iff]
    simp only [ranges_overlap, CalDate.before, CalDate.after, Bool.not_eq_true',
      Bool.not_or, Bool.and_eq_true, Bool.not_eq_false, decide_eq_true_eq,
      decide_eq_false_iff_not, not_lt, gt_iff_lt]
    omega
  · intro w vacs username ns ne hw
    rcases hw with hw | hw
    · simp [check_vacation_overlap, List.filter_cons, hw, isActiveStatus]
    · simp [check_vacation_overlap, List.filter_cons, hw]
  · intro total_of today user existing dta w hmem happ hact hov u hcontra
    have hchk : check_vacation_overlap existing user.username dta.start_date
        dta.end_date = false := by
      simp only [check_vacation_overlap]
      rw [List.all_eq_false]
      refine ⟨w, List.mem_filter.mpr ⟨hmem, by simp [happ, hact]⟩, by simp [hov]⟩
    simp only [apply_vacation, hchk] at hcontra
    split at hcontra
    · simp at hcontra
    · split at hcontra
      · simp at hcontra
      · simp at hcontra

/-- C6 witness: a rejected request does not block a new submission over
the same dates. -/
theorem overlap_check_properties_witness :
    check_vacation_overlap [rejectedReq] "lee" ⟨2026, 2, 1⟩ ⟨2026, 2, 3⟩ =
      check_vacation_overlap [] "lee" ⟨2026, 2, 1⟩ ⟨2026, 2, 3⟩ :=
  (overlap_check_properties ⟨2026, 2, 1⟩ ⟨2026, 2, 3⟩ ⟨2026, 2, 1⟩ ⟨2026, 2, 3⟩).2.2.1
    rejectedReq [] "lee" ⟨2026, 2, 1⟩ ⟨2026, 2, 3⟩ (Or.inl rfl)

/-- C7: an admitted submission starts in `pending_team_leader` when the
applicant holds the part-leader role and in `pending_part_leader`
otherwise, so a part-leader's own submission never starts in
`pending_part_leader`. -/
theorem submit_initial_status (total_of : CalDate → ℚ) (today : CalDate)
    (user : UserRec) (existing : List Vacation) (dta : VacationData) (v : Vacation)
    (h : apply_vacation total_of today user existing dta = ApplyOutcome.created v) :
    (is_part_leader user.role = true → v.status = VacationStatus.pending_team_leader) ∧
    (is_part_leader user.role = false → v.status = VacationStatus.pending_part_leader) := by
  have hv : v.status = determine_approval_status user.role := by
    simp only [apply_vacation] at h
    split at h
    · simp at h
    · split at h
      · simp at h
      · split at h
        · simp at h
        · split at h
          · simp at h
          · injection h with h2
            rw [← h2]
  constructor <;> intro hP <;> simp [hv, determine_approval_status, hP]

/-- C7 witness: a part-leader's own admitted submission lands in
`pending_team_leader`. -/
theorem submit_initial_status_witness :
    parkCreated.status = VacationStatus.pending_team_leader :=
  (submit_initial_status (fun _ => 15) sampleDay partLeaderPark [] parkSubmission parkCreated
    (by norm_num +decide [apply_vacation, CalDate.before, can_use_annual_leave,
      fullMonthsElapsed, check_vacation_overlap, check_annual_leave_balance, requested_days,
      calculate_used_annual_leave, determine_approval_status, partLeaderPark, parkSubmission,
      parkCreated, sampleDay, CalDate.toOrdinal, CalDate.daysBeforeMonth,
      CalDate.isLeapYear])).1 (by decide)

/-- C8: cancellation succeeds (deleting the record) exactly when the
requester is the original applicant and the status is one of the two
pending states; in every other case it is denied and the record is
unchanged. -/
theorem cancel_exact_conditions (v : Vacation) (username : String) :
    (cancel_vacation v username = (true, none) ↔
      v.applicant = username ∧
        (v.status = VacationStatus.pending_part_leader ∨
          v.status = VacationStatus.pending_team_leader)) ∧
    (¬(v.applicant = username ∧
        (v.status = VacationStatus.pending_part_leader ∨
          v.status = VacationStatus.pending_team_leader)) →
      cancel_vacation v username = (false, some v)) := by
  cases hS : v.status <;> by_cases hA : v.applicant = username <;>
    simp_all [cancel_vacation]

/-- C8 witness: cancelling an own pending request deletes it; cancelling
an approved request is denied. -/
theorem cancel_exact_conditions_witness :
    cancel_vacation pendingTLReq "kim" = (true, none) ∧
      cancel_vacation approvedReq "lee" = (false, some approvedReq) :=
  ⟨(cancel_exact_conditions pendingTLReq "kim").1.mpr ⟨rfl, Or.inr rfl⟩,
    (cancel_exact_conditions approvedReq "lee").2 (by simp [approvedReq])⟩

/-- C9: the approve operation never compares the approver with the
applicant — a team-leader approving their own `pending_team_leader`
request succeeds and the request becomes `approved`. -/
theorem self_approval_allowed (u : UserRec) (v : Vacation)
    (happ : v.applicant = u.username) (hrole : is_team_leader u.role = true)
    (hst : v.status = VacationStatus.pending_team_leader) :
    approve_vacation u v = (true, { v with status := VacationStatus.approved }) := by
  simp [approve_vacation, validate_approval_permission, hrole, hst]

/-- C9 witness: kim (a team-leader) approves kim's own pending request. -/
theorem self_approval_allowed_witness :
    approve_vacation teamLeaderKim pendingTLReq =
      (true, { pendingTLReq with status := VacationStatus.approved }) :=
  self_approval_allowed teamLeaderKim pendingTLReq rfl (by decide) rfl

/-- C10: the workflow engine's role predicates are exact comma-token
membership without whitespace trimming, so the role string
"member, part-leader" is not recognized as part-leader by submission
routing, approve or reject, while the route-level `approval_required`
decorator (which strips the tokens) grants the same user access. -/
theorem role_membership_untrimmed :
    (∀ role, is_team_leader role = true ↔ UserRole.TEAM_LEADER ∈ pySplitComma role) ∧
    (∀ role, is_part_leader role = true ↔ UserRole.PART_LEADER ∈ pySplitComma role) ∧
    is_part_leader "member, part-leader" = false ∧
    approval_required_allows "member, part-leader" = true ∧
    determine_approval_status "member, part-leader" = VacationStatus.pending_part_leader ∧
    (∀ (u : UserRec) (v : Vacation), u.role = "member, part-leader" →
      v.status = VacationStatus.pending_part_leader ∨
        v.status = VacationStatus.pending_team_leader →
      approve_vacation u v = (false, v) ∧ reject_vacation u v = (false, v)) := by
  refine ⟨?_, ?_, by decide, by decide, by decide, ?_⟩
  · intro role
    simp [is_team_leader, List.contains, List.elem_iff]
  · intro role
    simp [is_part_leader, List.contains, List.elem_iff]
  · intro u v hrole hst
    have hT : is_team_leader u.role = false := by rw [hrole]; decide
    have hP : is_part_leader u.role = false := by rw [hrole]; decide
    rcases hst with hst | hst <;>
      simp [approve_vacation, validate_approval_permission, reject_vacation,
        has_approval_permission, hT, hP, hst]

/-- C10 witness: the user with role "member, part-leader" can neither
approve nor reject a pending request inside the engine. -/
theorem role_membership_untrimmed_witness :
    approve_vacation mixedRoleChoi pendingPLReq = (false, pendingPLReq) ∧
      reject_vacation mixedRoleChoi pendingPLReq = (false, pendingPLReq) :=
  role_membership_untrimmed.2.2.2.2.2 mixedRoleChoi pendingPLReq rfl (Or.inl rfl)

end VacationSystem
